import Mathlib

/-!
Verification of the Daily Quiz Session & Attempt Lifecycle of the mindgain2
repository.

The core logic lives in the SQL migration file (src/unnamed/part_000), which
contains two migrations.  The migration titled "Rebuild Daily Quiz System from
Scratch" creates the four tables (daily_quiz_questions, daily_quiz_sessions,
user_daily_attempts, user_quiz_limits) together with a first version of the
three stored procedures; the migration titled "Fix RLS policies for daily quiz
system" drops and recreates exactly the row-level-security policies that the
rebuild migration creates, so it can only run after it, and its
CREATE OR REPLACE FUNCTION statements therefore install the final, deployed
bodies of create_daily_quiz_session, check_user_quiz_limit and
submit_daily_quiz_attempt.  We embed both versions: the deployed bodies keep
the source names, the superseded rebuild bodies carry a `_rebuild` suffix.

Modelling conventions:
* uuids are Nat; `gen_random_uuid()` is modelled by a `next_id` counter.
* `date` and `timestamptz` values are Int day / time stamps, and
  `CURRENT_DATE` / `now()` are explicit `today` / `now` parameters.
* In the bucket queries, array_agg collapses the result to one row before
  ORDER BY random() and LIMIT apply, so both are dead; the unspecified
  aggregation order is modelled by the ambient order of the question list,
  and every statement below is proved for an arbitrary order.
* Postgres `array_length(a, 1)` is NULL on the empty array; this is modelled
  by `pgArrayLength` returning `Option Nat`, and the plpgsql failure of
  `FOR i IN 1..NULL` is the `nullArrayLength` error.
* `ROUND` on a double-precision value rounds half to even; `pgRound` rounds
  the exact rational `num/den` half to even (double-precision representation
  noise at exotic ties is below the granularity of this model).
* Each stored procedure runs as one transaction: a raised exception rolls the
  whole call back, so every error outcome returns the unmodified store.
* `created_at` / `updated_at` timestamp bookkeeping columns are not modelled.
-/

namespace DailyQuiz

/-- A row of daily_quiz_questions (option texts and explanation omitted:
no procedure reads them). correct_answer is CHECKed into 0..3. -/
structure Question where
  id : Nat
  correct_answer : Int
  points : Int
  subject : String
  difficulty : String
  is_active : Bool
deriving DecidableEq

/-- A row of daily_quiz_sessions. quiz_date carries a UNIQUE constraint. -/
structure Session where
  id : Nat
  quiz_date : Int
  selected_questions : List Nat
  total_questions : Int
  total_points : Int
  is_active : Bool
deriving DecidableEq

/-- A row of user_daily_attempts, with UNIQUE(user_id, quiz_date). -/
structure Attempt where
  id : Nat
  user_id : Nat
  quiz_session_id : Nat
  quiz_date : Int
  answers : List Int
  correct_answers : Nat
  total_questions : Nat
  score_percentage : Nat
  total_points : Int
  time_spent : Int
deriving DecidableEq

/-- A row of user_quiz_limits (primary key user_id). -/
structure UserLimits where
  user_id : Nat
  daily_limit : Int
  attempts_today : Int
  last_attempt_date : Int
  is_premium : Bool
  premium_expires_at : Option Int
deriving DecidableEq

/-- A row of user_stats.  The table itself is created by a migration that is
not part of this snapshot; the fields are the ones the procedures under
src/ read and write. -/
structure UserStats where
  user_id : Nat
  total_xp : Int
  missions_completed : Int
  current_level : Int
  last_activity_date : Int
deriving DecidableEq

/-- The relational store the procedures run against. -/
structure Store where
  questions : List Question
  sessions : List Session
  attempts : List Attempt
  limits : List UserLimits
  stats : List UserStats
  next_id : Nat
deriving DecidableEq

/-- The failure outcomes of the procedures, named after the spec taxonomy:
`alreadySubmittedToday` is the uniqueness violation of the attempt insert,
`uniqueViolation` the one of the session insert, and `nullArrayLength` the
plpgsql abort on a NULL loop bound / NULL arithmetic from
`array_length('{}')`. -/
inductive QuizError where
  | noActiveSession
  | limitExceeded
  | alreadySubmittedToday
  | uniqueViolation
  | nullArrayLength
deriving DecidableEq

/-- The jsonb object returned by check_user_quiz_limit. -/
structure LimitResult where
  can_attempt : Bool
  remaining_attempts : Int
  is_premium : Bool
  daily_limit : Int
  attempts_today : Int
deriving DecidableEq

/-- The jsonb object returned by submit_daily_quiz_attempt. -/
structure SubmitResult where
  attempt_id : Nat
  correct_answers : Nat
  total_questions : Nat
  score_percentage : Nat
  total_points : Int
  xp_earned : Int
  time_spent : Int
deriving DecidableEq

/-- Postgres array_length(a, 1): NULL on the empty array. -/
def pgArrayLength {α : Type} (l : List α) : Option Nat :=
  if l.isEmpty then none else some l.length

/-- Postgres ROUND on double precision applied to the exact rational
num / den: round half to even. -/
def pgRound (num den : Nat) : Nat :=
  let q := num / den
  let r := num % den
  if 2 * r < den then q
  else if den < 2 * r then q + 1
  else if q % 2 == 0 then q else q + 1

/-- SELECT ... FROM daily_quiz_sessions WHERE quiz_date = today AND
is_active = true (the read both deployed procedures start with). -/
def todaysSession (today : Int) (s : Store) : Option Session :=
  s.sessions.find? (fun r => r.quiz_date == today && r.is_active)

/-- SELECT array_agg(id) FROM daily_quiz_questions
WHERE difficulty = d AND is_active = true ORDER BY random() LIMIT k.
array_agg is an aggregate with no GROUP BY, so the query collapses to a
single row before ORDER BY and LIMIT apply: both are dead, and the array
holds the ids of ALL matching rows.  The aggregation order is unspecified
in SQL; it is abstracted as the ambient list order. -/
def selectByDifficulty (qs : List Question) (d : String) : List Nat :=
  (qs.filter (fun q => q.difficulty == d && q.is_active)).map (fun q => q.id)

/-- The easy ++ medium ++ hard selection of create_daily_quiz_session: the
nominal 8/8/4 LIMITs never take effect (see selectByDifficulty), so every
active question of each difficulty is selected (the deployed body COALESCEs
each bucket to the empty array, which the list model renders directly). -/
def pickQuestionIds (qs : List Question) : List Nat :=
  selectByDifficulty qs "easy" ++ selectByDifficulty qs "medium" ++
    selectByDifficulty qs "hard"

/-- INSERT INTO daily_quiz_sessions guarded by the UNIQUE constraint on
quiz_date; the deployed body inserts the constants total_questions = 20 and
total_points = 200. -/
def sessionInsert (today : Int) (ids : List Nat) (s : Store) :
    Except QuizError (Nat × Store) :=
  if s.sessions.any (fun r => r.quiz_date == today) then
    .error .uniqueViolation
  else
    let sess : Session :=
      { id := s.next_id, quiz_date := today, selected_questions := ids,
        total_questions := 20, total_points := 200, is_active := true }
    .ok (sess.id, { s with sessions := s.sessions ++ [sess],
                           next_id := s.next_id + 1 })

/-- Deployed create_daily_quiz_session: read today's active session, return
its id if present, otherwise select the question ids per difficulty (the
nominal 8/8/4 caps are dead, see selectByDifficulty) and insert a new
session row.  An exception (e.g. the uniqueness violation) rolls the
transaction back. -/
def create_daily_quiz_session (today : Int) (s : Store) :
    Except QuizError Nat × Store :=
  match todaysSession today s with
  | some r => (.ok r.id, s)
  | none =>
    match sessionInsert today (pickQuestionIds s.questions) s with
    | .ok (i, s1) => (.ok i, s1)
    | .error e => (.error e, s)

/-- Two concurrent create_daily_quiz_session calls interleaved at the
statement boundary: our initial SELECT sees store s0, a concurrent caller
commits, and our INSERT then executes against store s1. -/
def create_session_interleaved (today : Int) (s0 s1 : Store) :
    Except QuizError Nat × Store :=
  match todaysSession today s0 with
  | some r => (.ok r.id, s1)
  | none =>
    match sessionInsert today (pickQuestionIds s0.questions) s1 with
    | .ok (i, s2) => (.ok i, s2)
    | .error e => (.error e, s1)

/-- SELECT * FROM user_quiz_limits WHERE user_id = uid. -/
def findLimits (s : Store) (uid : Nat) : Option UserLimits :=
  s.limits.find? (fun r => r.user_id == uid)

/-- UPDATE user_quiz_limits SET ... WHERE user_id = uid (a no-op when no row
matches, exactly like the SQL UPDATE). -/
def setLimitRow (rows : List UserLimits) (uid : Nat)
    (f : UserLimits → UserLimits) : List UserLimits :=
  rows.map (fun r => if r.user_id == uid then f r else r)

/-- Deployed check_user_quiz_limit: get-or-create the limit row (defaults
daily_limit 1, attempts_today 0, last_attempt_date CURRENT_DATE), reset the
counter when last_attempt_date != today (setting both fields in one UPDATE,
and only attempts_today on the local record, as the plpgsql body does), then
report can_attempt = attempts_today < daily_limit and
remaining = GREATEST(0, daily_limit - attempts_today).  This deployed body
has no premium branch. -/
def check_user_quiz_limit (today : Int) (uid : Nat) (s : Store) :
    LimitResult × Store :=
  let rs :=
    match findLimits s uid with
    | some r => (r, s)
    | none =>
      let r : UserLimits :=
        { user_id := uid, daily_limit := 1, attempts_today := 0,
          last_attempt_date := today, is_premium := false,
          premium_expires_at := none }
      (r, { s with limits := s.limits ++ [r] })
  let row := rs.1
  let s1 := rs.2
  let reset := fun (t : UserLimits) =>
    { t with attempts_today := 0, last_attempt_date := today }
  let rs2 :=
    if row.last_attempt_date ≠ today then
      ({ row with attempts_today := 0 },
       { s1 with limits := setLimitRow s1.limits uid reset })
    else (row, s1)
  let row2 := rs2.1
  ({ can_attempt := row2.attempts_today < row2.daily_limit,
     remaining_attempts := max 0 (row2.daily_limit - row2.attempts_today),
     is_premium := row2.is_premium,
     daily_limit := row2.daily_limit,
     attempts_today := row2.attempts_today }, rs2.2)

/-- Superseded rebuild-migration check_user_quiz_limit: ON CONFLICT DO
NOTHING get-or-create, reset when last_attempt_date < today, premium branch
(is_premium and premium_expires_at NULL or > now()) reporting the 999
sentinel, and remaining = daily_limit - attempts_today without a GREATEST
clamp. -/
def check_user_quiz_limit_rebuild (now today : Int) (uid : Nat) (s : Store) :
    LimitResult × Store :=
  let rs :=
    match findLimits s uid with
    | some r => (r, s)
    | none =>
      let r : UserLimits :=
        { user_id := uid, daily_limit := 1, attempts_today := 0,
          last_attempt_date := today, is_premium := false,
          premium_expires_at := none }
      (r, { s with limits := s.limits ++ [r] })
  let row := rs.1
  let s1 := rs.2
  let reset := fun (t : UserLimits) =>
    { t with attempts_today := 0, last_attempt_date := today }
  let rs2 :=
    if row.last_attempt_date < today then
      ({ row with attempts_today := 0 },
       { s1 with limits := setLimitRow s1.limits uid reset })
    else (row, s1)
  let row2 := rs2.1
  if row2.is_premium &&
      (match row2.premium_expires_at with
       | none => true
       | some t => now < t) then
    ({ can_attempt := true, remaining_attempts := 999,
       is_premium := row2.is_premium, daily_limit := row2.daily_limit,
       attempts_today := row2.attempts_today }, rs2.2)
  else
    ({ can_attempt := row2.attempts_today < row2.daily_limit,
       remaining_attempts := row2.daily_limit - row2.attempts_today,
       is_premium := row2.is_premium, daily_limit := row2.daily_limit,
       attempts_today := row2.attempts_today }, rs2.2)

/-- One iteration of the grading loop: look the question up by id and, when
the submitted answer equals its correct_answer, count it and add its
points. -/
def gradeStep (qs : List Question) (acc : Nat × Int) (p : Int × Nat) :
    Nat × Int :=
  match qs.find? (fun q => q.id == p.2) with
  | some q => if p.1 == q.correct_answer then (acc.1 + 1, acc.2 + q.points)
              else acc
  | none => acc

/-- The grading loop.  The deployed body iterates over the answers array
guarded by i <= array_length(selected_questions); the rebuild body iterates
over selected_questions reading p_answers[i], which is NULL (never equal)
past the end.  Both therefore grade exactly the positions of
answers.zip selected_questions. -/
def gradeAnswers (qs : List Question) (qids : List Nat) (answers : List Int) :
    Nat × Int :=
  (answers.zip qids).foldl (gradeStep qs) (0, 0)

/-- INSERT INTO user_stats ... ON CONFLICT (user_id) DO UPDATE: the additive
upsert of the deployed submit body.  The insert path takes the table
defaults for the unlisted columns (the user_stats schema is outside this
snapshot; current_level is modelled as defaulting to 1). -/
def upsertStats (rows : List UserStats) (uid : Nat) (xp : Int) (today : Int) :
    List UserStats :=
  if rows.any (fun r => r.user_id == uid) then
    rows.map (fun r =>
      if r.user_id == uid then
        { r with total_xp := r.total_xp + xp,
                 missions_completed := r.missions_completed + 1,
                 last_activity_date := today }
      else r)
  else
    rows ++ [{ user_id := uid, total_xp := xp, missions_completed := 1,
               current_level := 1, last_activity_date := today }]

/-- Does an attempt row for (uid, today) exist (the UNIQUE(user_id,
quiz_date) guard of the attempt insert)? -/
def hasAttemptToday (s : Store) (uid : Nat) (today : Int) : Bool :=
  s.attempts.any (fun a => a.user_id == uid && a.quiz_date == today)

/-- Deployed submit_daily_quiz_attempt: read today's active session (else
the NoActiveSession exception), set total_questions :=
array_length(p_answers, 1) (NULL on the empty array, aborting the call),
grade, insert the attempt row under UNIQUE(user_id, quiz_date), and only
then increment the limit row and additively upsert user_stats with
xp = total_points * 2.  Every exception rolls the transaction back. -/
def submit_daily_quiz_attempt (today : Int) (uid : Nat) (p_answers : List Int)
    (p_time : Int) (s : Store) : Except QuizError SubmitResult × Store :=
  match todaysSession today s with
  | none => (.error .noActiveSession, s)
  | some sess =>
    match pgArrayLength p_answers with
    | none => (.error .nullArrayLength, s)
    | some n =>
      let g := gradeAnswers s.questions sess.selected_questions p_answers
      let score := pgRound (100 * g.1) n
      let xp := g.2 * 2
      if hasAttemptToday s uid today then
        (.error .alreadySubmittedToday, s)
      else
        let att : Attempt :=
          { id := s.next_id, user_id := uid, quiz_session_id := sess.id,
            quiz_date := today, answers := p_answers, correct_answers := g.1,
            total_questions := n, score_percentage := score,
            total_points := g.2, time_spent := p_time }
        let consume := fun (r : UserLimits) =>
          { r with attempts_today := r.attempts_today + 1,
                   last_attempt_date := today }
        let s2 : Store :=
          { s with attempts := s.attempts ++ [att],
                   limits := setLimitRow s.limits uid consume,
                   stats := upsertStats s.stats uid xp today,
                   next_id := s.next_id + 1 }
        (.ok { attempt_id := att.id, correct_answers := g.1,
               total_questions := n, score_percentage := score,
               total_points := g.2, xp_earned := xp, time_spent := p_time },
         s2)

/-- Superseded rebuild-migration submit_daily_quiz_attempt: additionally
raises when its own check_user_quiz_limit reports can_attempt = false,
iterates and divides by array_length(selected_questions, 1), rewards
xp = 50 + 5 * correct_count, and updates user_stats with a plain additive
UPDATE (total_xp, derived current_level, last_activity_date; no
missions_completed increment, no insert when the row is absent). -/
def submit_daily_quiz_attempt_rebuild (now today : Int) (uid : Nat)
    (p_answers : List Int) (p_time : Int) (s : Store) :
    Except QuizError SubmitResult × Store :=
  match todaysSession today s with
  | none => (.error .noActiveSession, s)
  | some sess =>
    let chk := check_user_quiz_limit_rebuild now today uid s
    if chk.1.can_attempt = false then (.error .limitExceeded, s)
    else
      match pgArrayLength sess.selected_questions with
      | none => (.error .nullArrayLength, s)
      | some m =>
        let g := gradeAnswers s.questions sess.selected_questions p_answers
        let score := pgRound (100 * g.1) m
        let xp : Int := 50 + (g.1 : Int) * 5
        if hasAttemptToday chk.2 uid today then
          (.error .alreadySubmittedToday, s)
        else
          let att : Attempt :=
            { id := chk.2.next_id, user_id := uid, quiz_session_id := sess.id,
              quiz_date := today, answers := p_answers,
              correct_answers := g.1, total_questions := m,
              score_percentage := score, total_points := g.2,
              time_spent := p_time }
          let consume := fun (r : UserLimits) =>
            { r with attempts_today := r.attempts_today + 1,
                     last_attempt_date := today }
          let bumpStats := fun (r : UserStats) =>
            if r.user_id == uid then
              { r with total_xp := r.total_xp + xp,
                       current_level := (r.total_xp + xp) / 1000 + 1,
                       last_activity_date := today }
            else r
          let s2 : Store :=
            { chk.2 with attempts := chk.2.attempts ++ [att],
                         limits := setLimitRow chk.2.limits uid consume,
                         stats := chk.2.stats.map bumpStats,
                         next_id := chk.2.next_id + 1 }
          (.ok { attempt_id := att.id, correct_answers := g.1,
                 total_questions := m, score_percentage := score,
                 total_points := g.2, xp_earned := xp, time_spent := p_time },
           s2)

/-- The possible outcomes of the check_user_quiz_limit RPC as seen by the
TypeScript client: a value, a supabase error object, or a thrown
exception. -/
inductive RpcOutcome where
  | ok (v : LimitResult)
  | rpcError
  | thrown
deriving DecidableEq

/-- DailyQuizService.checkUserLimits (src/utils/supabaseService.ts): both
the error branch and the catch handler return the permissive defaults
instead of propagating the failure. -/
def clientCheckUserLimits (o : RpcOutcome) : LimitResult :=
  match o with
  | .ok v => v
  | .rpcError =>
    { can_attempt := true, remaining_attempts := 1, is_premium := false,
      daily_limit := 1, attempts_today := 0 }
  | .thrown =>
    { can_attempt := true, remaining_attempts := 1, is_premium := false,
      daily_limit := 1, attempts_today := 0 }

/-- At most one session row per quiz_date (the UNIQUE constraint). -/
def SessionsUnique (s : Store) : Prop :=
  s.sessions.Pairwise (fun a b => a.quiz_date ≠ b.quiz_date)

/-- At most one attempt row per (user_id, quiz_date) (the UNIQUE
constraint). -/
def AttemptsAtMostOne (s : Store) : Prop :=
  s.attempts.Pairwise
    (fun a b => ¬(a.user_id = b.user_id ∧ a.quiz_date = b.quiz_date))

instance (s : Store) : Decidable (SessionsUnique s) := by
  unfold SessionsUnique
  infer_instance

instance (s : Store) : Decidable (AttemptsAtMostOne s) := by
  unfold AttemptsAtMostOne
  infer_instance

/-- A submit request: (today, user, answers, time_spent). -/
def runSubmits (reqs : List (Int × Nat × List Int × Int)) (s : Store) : Store :=
  reqs.foldl
    (fun st q => (submit_daily_quiz_attempt q.1 q.2.1 q.2.2.1 q.2.2.2 st).2) s

/-- Did the call succeed? -/
def submitOk (x : Except QuizError SubmitResult) : Bool :=
  match x with
  | .ok _ => true
  | .error _ => false

/-! Claim-side definitions, written from the spec wording so the code can be
compared against them. -/

/-- Spec wording: position i is correct when answers[i] equals the i-th
session question's correct_answer. -/
def answerMatches (qs : List Question) (p : Int × Nat) : Bool :=
  match qs.find? (fun q => q.id == p.2) with
  | some q => p.1 == q.correct_answer
  | none => false

/-- The point value of the question with the given id (0 when absent). -/
def pointsOf (qs : List Question) (qid : Nat) : Int :=
  match qs.find? (fun q => q.id == qid) with
  | some q => q.points
  | none => 0

/-- Spec wording: the number of positions i at which answers[i] equals the
i-th session question's correct_answer. -/
def spec_correct_count (qs : List Question) (qids : List Nat)
    (ans : List Int) : Nat :=
  ((ans.zip qids).filter (answerMatches qs)).length

/-- Spec wording: the sum of the points of exactly the correctly answered
questions. -/
def spec_points_sum (qs : List Question) (qids : List Nat)
    (ans : List Int) : Int :=
  (((ans.zip qids).filter (answerMatches qs)).map (fun p => pointsOf qs p.2)).sum

/-- Spec wording (C7): the sum of the actually selected questions' point
values. -/
def spec_selected_points_sum (qs : List Question) (qids : List Nat) : Int :=
  (qids.map (fun i => pointsOf qs i)).sum

/-! Concrete instances used by counterexamples and witnesses. -/

/-- C5 / C4 instance: a premium user (no expiry) with 50 attempts against a
daily limit of 1. -/
def c5row : UserLimits :=
  { user_id := 7, daily_limit := 1, attempts_today := 50,
    last_attempt_date := 100, is_premium := true, premium_expires_at := none }

def c5store : Store :=
  { questions := [], sessions := [], attempts := [], limits := [c5row],
    stats := [], next_id := 0 }

/-- C4 instance: a free user whose stored date (5) is older than today (6). -/
def c4row : UserLimits :=
  { user_id := 3, daily_limit := 2, attempts_today := 7,
    last_attempt_date := 5, is_premium := false, premium_expires_at := none }

def c4store : Store :=
  { questions := [], sessions := [], attempts := [], limits := [c4row],
    stats := [], next_id := 0 }

/-- C3 instance: an active session for today = 10 and a user with
daily_limit = 0, so the limit check reports can_attempt = false. -/
def c3q : Question :=
  { id := 1, correct_answer := 1, points := 10, subject := "Polity",
    difficulty := "medium", is_active := true }

def c3sess : Session :=
  { id := 5, quiz_date := 10, selected_questions := [1],
    total_questions := 20, total_points := 200, is_active := true }

def c3row : UserLimits :=
  { user_id := 7, daily_limit := 0, attempts_today := 0,
    last_attempt_date := 10, is_premium := false, premium_expires_at := none }

def c3store : Store :=
  { questions := [c3q], sessions := [c3sess], attempts := [], limits := [c3row],
    stats := [], next_id := 6 }

/-- C2 instance: before the race, the store has no session for today = 10;
the concurrent caller commits session 100 between our read and our
insert. -/
def c2q : Question :=
  { id := 1, correct_answer := 1, points := 10, subject := "History",
    difficulty := "easy", is_active := true }

def c2s0 : Store :=
  { questions := [c2q], sessions := [], attempts := [], limits := [],
    stats := [], next_id := 3 }

def c2existing : Session :=
  { id := 100, quiz_date := 10, selected_questions := [1],
    total_questions := 20, total_points := 200, is_active := true }

def c2s1 : Store :=
  { questions := [c2q], sessions := [c2existing], attempts := [], limits := [],
    stats := [], next_id := 101 }

/-- C7 instance: one active question per difficulty (points 10/10/15), far
below the requested 8/8/4. -/
def c7e : Question :=
  { id := 1, correct_answer := 0, points := 10, subject := "History",
    difficulty := "easy", is_active := true }

def c7m : Question :=
  { id := 2, correct_answer := 1, points := 10, subject := "Polity",
    difficulty := "medium", is_active := true }

def c7h : Question :=
  { id := 3, correct_answer := 2, points := 15, subject := "Economy",
    difficulty := "hard", is_active := true }

def c7store : Store :=
  { questions := [c7e, c7m, c7h], sessions := [], attempts := [], limits := [],
    stats := [], next_id := 50 }

/-- The session the deployed procedure creates from c7store. -/
def c7sess : Session :=
  { id := 50, quiz_date := 10, selected_questions := [1, 2, 3],
    total_questions := 20, total_points := 200, is_active := true }

/-- C6 / C8 instance: the spec example — a 3-question session with correct
answers [1, 2, 0] and points [10, 10, 15]. -/
def c6q1 : Question :=
  { id := 1, correct_answer := 1, points := 10, subject := "History",
    difficulty := "easy", is_active := true }

def c6q2 : Question :=
  { id := 2, correct_answer := 2, points := 10, subject := "Polity",
    difficulty := "medium", is_active := true }

def c6q3 : Question :=
  { id := 3, correct_answer := 0, points := 15, subject := "Economy",
    difficulty := "hard", is_active := true }

def c6sess : Session :=
  { id := 9, quiz_date := 10, selected_questions := [1, 2, 3],
    total_questions := 20, total_points := 200, is_active := true }

def c6store : Store :=
  { questions := [c6q1, c6q2, c6q3], sessions := [c6sess], attempts := [],
    limits := [{ user_id := 1, daily_limit := 1, attempts_today := 0,
                 last_attempt_date := 10, is_premium := false,
                 premium_expires_at := none }],
    stats := [], next_id := 11 }

/-- The result of submitting the spec example answers [1, 2, 1] against
c6store. -/
def c6result : SubmitResult :=
  { attempt_id := 11, correct_answers := 2, total_questions := 3,
    score_percentage := 67, total_points := 20, xp_earned := 40,
    time_spent := 30 }

/-- C9 instance: a user with an existing limit row and an existing stats
row. -/
def c9row : UserLimits :=
  { user_id := 1, daily_limit := 1, attempts_today := 0,
    last_attempt_date := 10, is_premium := false, premium_expires_at := none }

def c9stat : UserStats :=
  { user_id := 1, total_xp := 700, missions_completed := 4,
    current_level := 1, last_activity_date := 9 }

def c9store : Store :=
  { questions := [c6q1, c6q2, c6q3], sessions := [c6sess], attempts := [],
    limits := [c9row], stats := [c9stat], next_id := 11 }

/-- C1 instance: the same data, used for the double-submission witness. -/
def c1store : Store := c9store

deriving instance DecidableEq for Except

/-! ### Helper lemmas -/

theorem pgArrayLength_of_ne_nil {α : Type} (l : List α) (h : l ≠ []) :
    pgArrayLength l = some l.length := by
  cases l with
  | nil => exact absurd rfl h
  | cons a as => rfl

theorem find?_setLimitRow (l : List UserLimits) (uid : Nat)
    (f : UserLimits → UserLimits) (hf : ∀ r, (f r).user_id = r.user_id) :
    (setLimitRow l uid f).find? (fun r => r.user_id == uid) =
      (l.find? (fun r => r.user_id == uid)).map f := by
  induction l with
  | nil => rfl
  | cons a l ih =>
    rw [show setLimitRow (a :: l) uid f =
          (if a.user_id == uid then f a else a) :: setLimitRow l uid f from rfl]
    cases h : (a.user_id == uid) with
    | true =>
      have hfa : ((f a).user_id == uid) = true := by rw [hf a]; exact h
      rw [if_pos rfl]
      simp only [List.find?_cons, hfa, h]
      rfl
    | false =>
      rw [if_neg (by decide)]
      simp only [List.find?_cons, h]
      exact ih

theorem zip_take_length {α β : Type} (l1 : List α) (l2 : List β) :
    l1.zip (l2.take l1.length) = l1.zip l2 := by
  induction l1 generalizing l2 with
  | nil => simp
  | cons a l ih =>
    cases l2 with
    | nil => simp
    | cons b l2 => simp [List.take_succ_cons, ih]

theorem gradeStep_eq (qs : List Question) (acc : Nat × Int) (p : Int × Nat) :
    gradeStep qs acc p =
      if answerMatches qs p then (acc.1 + 1, acc.2 + pointsOf qs p.2)
      else acc := by
  unfold gradeStep answerMatches pointsOf
  cases h : qs.find? (fun q => q.id == p.2) with
  | none => simp [h]
  | some q => simp [h]

theorem foldl_gradeStep (qs : List Question) (l : List (Int × Nat))
    (c : Nat) (pts : Int) :
    l.foldl (gradeStep qs) (c, pts) =
      (c + (l.filter (answerMatches qs)).length,
       pts + ((l.filter (answerMatches qs)).map (fun p => pointsOf qs p.2)).sum) := by
  induction l generalizing c pts with
  | nil => simp
  | cons x l ih =>
    rw [List.foldl_cons, gradeStep_eq]
    by_cases hx : answerMatches qs x
    · rw [if_pos hx, ih]
      refine Prod.ext ?_ ?_ <;> simp [hx] <;> omega
    · rw [if_neg hx, ih]
      simp [hx]

theorem gradeAnswers_eq_spec (qs : List Question) (qids : List Nat)
    (ans : List Int) :
    gradeAnswers qs qids ans =
      (spec_correct_count qs qids ans, spec_points_sum qs qids ans) := by
  unfold gradeAnswers spec_correct_count spec_points_sum
  rw [foldl_gradeStep]
  simp

/-! ### Claim theorems -/

/-- C10: DailyQuizService.checkUserLimits fails open — when the
check_user_quiz_limit RPC returns an error or throws, the client returns
can_attempt = true with the defaults daily_limit = 1, attempts_today = 0,
remaining_attempts = 1, is_premium = false, instead of propagating the
failure. -/
theorem client_check_limits_fails_open :
    clientCheckUserLimits .rpcError =
      { can_attempt := true, remaining_attempts := 1, is_premium := false,
        daily_limit := 1, attempts_today := 0 } ∧
    clientCheckUserLimits .thrown =
      { can_attempt := true, remaining_attempts := 1, is_premium := false,
        daily_limit := 1, attempts_today := 0 } := ⟨rfl, rfl⟩

/-- C5: the deployed check_user_quiz_limit has no premium branch.  On the
spec's own example (premium user, no expiry, attempts_today = 50,
daily_limit = 1) it reports can_attempt = false and remaining 0, while the
superseded rebuild-migration version reports can_attempt = true with the
999 unlimited sentinel exactly as the claim states. -/
theorem check_limit_premium_divergence :
    (check_user_quiz_limit 100 7 c5store).1 =
      { can_attempt := false, remaining_attempts := 0, is_premium := true,
        daily_limit := 1, attempts_today := 50 } ∧
    (check_user_quiz_limit_rebuild 0 100 7 c5store).1 =
      { can_attempt := true, remaining_attempts := 999, is_premium := true,
        daily_limit := 1, attempts_today := 50 } := by decide

/-- C3: the deployed submit_daily_quiz_attempt never consults the limit
check.  With an active session for today and a user whose limit check
reports can_attempt = false (daily_limit = 0), the deployed procedure
accepts and records the attempt, while the superseded rebuild-migration
version fails with LimitExceeded and leaves the store untouched; the
NoActiveSession precondition does hold in the deployed version (a day with
no session fails and modifies nothing). -/
theorem submit_limit_check_divergence :
    (check_user_quiz_limit 10 7 c3store).1.can_attempt = false ∧
    (submit_daily_quiz_attempt 10 7 [1] 30 c3store).1 =
      .ok { attempt_id := 6, correct_answers := 1, total_questions := 1,
            score_percentage := 100, total_points := 10, xp_earned := 20,
            time_spent := 30 } ∧
    submit_daily_quiz_attempt_rebuild 0 10 7 [1] 30 c3store =
      (.error .limitExceeded, c3store) ∧
    submit_daily_quiz_attempt 11 7 [1] 30 c3store =
      (.error .noActiveSession, c3store) := by decide

/-- C2 counterexample: when a concurrent caller inserts today's session
between the read and the insert, create_daily_quiz_session does not re-read
and return the existing session's id — the uniqueness-violation error
propagates (though no duplicate row is created). -/
theorem session_race_no_reread_cex :
    create_session_interleaved 10 c2s0 c2s1 = (.error .uniqueViolation, c2s1) ∧
    (create_session_interleaved 10 c2s0 c2s1).1 ≠ .ok c2existing.id := by
  decide

/-- C6 counterexample: for an answers array shorter than the session, the
deployed grading divides by the length of the submitted array, not by the
session's question count: one correct answer out of a 3-question session
scores 100, where the claimed formula gives round(1/3*100) = 33. -/
theorem grading_denominator_cex :
    (submit_daily_quiz_attempt 10 1 [1] 30 c6store).1 =
      .ok { attempt_id := 11, correct_answers := 1, total_questions := 1,
            score_percentage := 100, total_points := 10, xp_earned := 20,
            time_spent := 30 } ∧
    pgRound (100 * 1) c6sess.selected_questions.length = 33 ∧
    (100 : Nat) ≠ 33 := by decide

/-- C7 counterexample: with only 3 active questions (points 10 + 10 + 15)
the deployed create_daily_quiz_session records the constants
total_questions = 20 and total_points = 200, not the number actually
selected (3) nor the sum of the selected questions' point values (35). -/
theorem session_totals_fixed_cex :
    (create_daily_quiz_session 10 c7store).2.sessions = [c7sess] ∧
    c7sess.total_questions ≠ (c7sess.selected_questions.length : Int) ∧
    c7sess.total_points ≠
      spec_selected_points_sum c7store.questions c7sess.selected_questions := by
  decide

/-- C8 counterexample: an empty answers array is not graded as an all-blank
prefix — array_length of the empty array is NULL, so the plpgsql call
aborts and the submission is rejected with no row recorded. -/
theorem empty_answers_rejected_cex :
    submit_daily_quiz_attempt 10 1 [] 30 c6store =
      (.error .nullArrayLength, c6store) := by decide

/-- C4: date rollover in the deployed check_user_quiz_limit — for every
stored limit row whose last_attempt_date differs from today, the check sets
attempts_today to 0 and last_attempt_date to today in the same single row
update, regardless of the prior attempts_today value; when the stored date
equals today the store is untouched and attempts_today is reported
unchanged. -/
theorem limit_reset_on_new_day (today : Int) (uid : Nat) (s : Store)
    (row : UserLimits) (h : findLimits s uid = some row) :
    (row.last_attempt_date ≠ today →
       findLimits (check_user_quiz_limit today uid s).2 uid =
         some { row with attempts_today := 0, last_attempt_date := today }) ∧
    (row.last_attempt_date = today →
       (check_user_quiz_limit today uid s).2 = s ∧
       (check_user_quiz_limit today uid s).1.attempts_today =
         row.attempts_today) := by
  constructor
  · intro hne
    unfold check_user_quiz_limit
    rw [h]
    simp only [hne, if_true, ne_eq, not_false_eq_true]
    show List.find? (fun r => r.user_id == uid)
        (setLimitRow s.limits uid
          (fun t => { t with attempts_today := 0, last_attempt_date := today }))
      = some { row with attempts_today := 0, last_attempt_date := today }
    rw [find?_setLimitRow s.limits uid
      (fun t => { t with attempts_today := 0, last_attempt_date := today })
      (fun r => rfl)]
    have hs : s.limits.find? (fun r => r.user_id == uid) = some row := h
    rw [hs]
    rfl
  · intro heq
    unfold check_user_quiz_limit
    rw [h]
    simp [heq]

/-- Witness for C4 at a concrete store: user 3 with 7 attempts recorded on
day 5 is reset on the first check of day 6. -/
theorem limit_reset_on_new_day_witness :
    findLimits (check_user_quiz_limit 6 3 c4store).2 3 =
      some { user_id := 3, daily_limit := 2, attempts_today := 0,
             last_attempt_date := 6, is_premium := false,
             premium_expires_at := none } :=
  (limit_reset_on_new_day 6 3 c4store c4row (by decide)).1 (by decide)

theorem create_eq_interleaved_self (today : Int) (s : Store) :
    create_daily_quiz_session today s =
      create_session_interleaved today s s := rfl

/-- C2 (amended): a session row for a date is never duplicated — when an
active session exists at the initial read its id is returned with the store
unchanged, and when a concurrent caller inserted the row between the read
and the insert, the insert fails on the quiz_date uniqueness constraint and
the error propagates without a re-read; in every interleaving the
per-date uniqueness of session rows is preserved. -/
theorem session_uniqueness_on_race :
    (∀ today (s : Store) r, todaysSession today s = some r →
       create_daily_quiz_session today s = (.ok r.id, s)) ∧
    (∀ today (s0 s1 : Store), todaysSession today s0 = none →
       s1.sessions.any (fun r => r.quiz_date == today) = true →
       create_session_interleaved today s0 s1 =
         (.error .uniqueViolation, s1)) ∧
    (∀ today (s0 s1 : Store), SessionsUnique s1 →
       SessionsUnique (create_session_interleaved today s0 s1).2) := by
  refine ⟨?_, ?_, ?_⟩
  · intro today s r h
    unfold create_daily_quiz_session
    rw [h]
  · intro today s0 s1 h0 h1
    unfold create_session_interleaved
    rw [h0]
    unfold sessionInsert
    rw [if_pos h1]
  · intro today s0 s1 hu
    unfold create_session_interleaved
    cases h0 : todaysSession today s0 with
    | some r => exact hu
    | none =>
      unfold sessionInsert
      cases h1 : s1.sessions.any (fun r => r.quiz_date == today) with
      | true =>
        rw [if_pos rfl]
        exact hu
      | false =>
        rw [if_neg (by decide)]
        show List.Pairwise _ (s1.sessions ++ [_])
        rw [List.pairwise_append]
        refine ⟨hu, List.pairwise_singleton _ _, ?_⟩
        intro a ha b hb
        have hb2 : b.quiz_date = today := by
          rw [List.mem_singleton] at hb
          rw [hb]
        have := (List.any_eq_false.mp h1) a ha
        simp only [beq_iff_eq] at this
        rw [hb2]
        exact this

/-- Witness for C2 at the concrete race of c2s0 / c2s1: the insert fails
with the uniqueness violation and session-per-date uniqueness is kept. -/
theorem session_uniqueness_on_race_witness :
    create_session_interleaved 10 c2s0 c2s1 =
      (.error .uniqueViolation, c2s1) ∧
    SessionsUnique (create_session_interleaved 10 c2s0 c2s1).2 :=
  ⟨session_uniqueness_on_race.2.1 10 c2s0 c2s1 (by decide) (by decide),
   session_uniqueness_on_race.2.2 10 c2s0 c2s1 (by decide)⟩

/-- C7 (amended): each bucket selection returns every active question of
its difficulty (the LIMIT is dead because array_agg collapses the query to
one row first), so in particular a short bucket contributes all it has,
without error; and the created session always records the constants
total_questions = 20 and total_points = 200, regardless of how many
questions were actually selected. -/
theorem session_shortfall_and_fixed_totals :
    (∀ qs d, (selectByDifficulty qs d).length =
       (qs.filter (fun q => q.difficulty == d && q.is_active)).length) ∧
    (∀ today (s : Store), todaysSession today s = none →
       s.sessions.any (fun r => r.quiz_date == today) = false →
       (create_daily_quiz_session today s).1 = .ok s.next_id ∧
       (create_daily_quiz_session today s).2.sessions =
         s.sessions ++ [{ id := s.next_id, quiz_date := today,
                          selected_questions := pickQuestionIds s.questions,
                          total_questions := 20, total_points := 200,
                          is_active := true }]) := by
  constructor
  · intro qs d
    unfold selectByDifficulty
    rw [List.length_map]
  · intro today s h0 h1
    unfold create_daily_quiz_session
    rw [h0]
    unfold sessionInsert
    rw [if_neg (by simp [h1])]
    exact ⟨rfl, rfl⟩

/-- Witness for C7: from a bank with one question per difficulty (a
shortfall in every bucket) creation succeeds and stores the constants. -/
theorem session_shortfall_witness :
    (create_daily_quiz_session 10 c7store).1 = .ok c7store.next_id ∧
    (create_daily_quiz_session 10 c7store).2.sessions =
      c7store.sessions ++ [{ id := c7store.next_id, quiz_date := 10,
                             selected_questions :=
                               pickQuestionIds c7store.questions,
                             total_questions := 20, total_points := 200,
                             is_active := true }] :=
  session_shortfall_and_fixed_totals.2 10 c7store (by decide) (by decide)

theorem pgArrayLength_some {α : Type} {l : List α} {n : Nat}
    (h : pgArrayLength l = some n) : n = l.length := by
  unfold pgArrayLength at h
  by_cases he : l.isEmpty
  · rw [if_pos he] at h
    exact absurd h (by simp)
  · rw [if_neg he] at h
    exact (Option.some.injEq _ _ ▸ h).symm

theorem submit_ok_inversion (today : Int) (uid : Nat) (ans : List Int)
    (t : Int) (s : Store) (sess : Session) (n : Nat) (r : SubmitResult)
    (hs : todaysSession today s = some sess)
    (h1 : pgArrayLength ans = some n)
    (h2 : hasAttemptToday s uid today = false)
    (hok : (submit_daily_quiz_attempt today uid ans t s).1 = .ok r) :
    r = { attempt_id := s.next_id,
          correct_answers :=
            (gradeAnswers s.questions sess.selected_questions ans).1,
          total_questions := n,
          score_percentage :=
            pgRound
              (100 * (gradeAnswers s.questions sess.selected_questions ans).1)
              n,
          total_points :=
            (gradeAnswers s.questions sess.selected_questions ans).2,
          xp_earned :=
            (gradeAnswers s.questions sess.selected_questions ans).2 * 2,
          time_spent := t } := by
  unfold submit_daily_quiz_attempt at hok
  simp only [hs, h1, h2] at hok
  exact (Except.ok.inj hok).symm

/-- C6 (amended): for every accepted submission, correct_count is the
number of positions at which the answer equals the corresponding session
question's correct_answer and total_points the sum of exactly those
questions' points, as claimed; but score_percentage divides by the length
of the submitted answers array (which coincides with the session's question
count exactly when a full-length array is submitted, as in the claim's
3-question example). -/
theorem submit_grading_spec (today : Int) (uid : Nat) (ans : List Int)
    (t : Int) (s : Store) (sess : Session) (r : SubmitResult)
    (hs : todaysSession today s = some sess)
    (hok : (submit_daily_quiz_attempt today uid ans t s).1 = .ok r) :
    r.correct_answers =
      spec_correct_count s.questions sess.selected_questions ans ∧
    r.total_points =
      spec_points_sum s.questions sess.selected_questions ans ∧
    r.score_percentage = pgRound (100 * r.correct_answers) ans.length := by
  cases h1 : pgArrayLength ans with
  | none =>
    exact absurd hok
      (by unfold submit_daily_quiz_attempt; simp [hs, h1])
  | some n =>
    cases h2 : hasAttemptToday s uid today with
    | true =>
      exact absurd hok
        (by unfold submit_daily_quiz_attempt; simp [hs, h1, h2])
    | false =>
      have hr := submit_ok_inversion today uid ans t s sess n r hs h1 h2 hok
      subst hr
      refine ⟨?_, ?_, ?_⟩
      · show (gradeAnswers s.questions sess.selected_questions ans).1 = _
        rw [gradeAnswers_eq_spec]
      · show (gradeAnswers s.questions sess.selected_questions ans).2 = _
        rw [gradeAnswers_eq_spec]
      · show pgRound
            (100 * (gradeAnswers s.questions sess.selected_questions ans).1)
            n =
          pgRound
            (100 * (gradeAnswers s.questions sess.selected_questions ans).1)
            ans.length
        rw [pgArrayLength_some h1]

/-- Witness for C6 at the spec example: answers [1, 2, 1] against the
3-question session with correct answers [1, 2, 0] and points [10, 10, 15]
give correct_count 2, total_points 20 and score 67. -/
theorem submit_grading_spec_witness :
    c6result.correct_answers =
      spec_correct_count c6store.questions c6sess.selected_questions
        [1, 2, 1] ∧
    c6result.total_points =
      spec_points_sum c6store.questions c6sess.selected_questions [1, 2, 1] ∧
    c6result.score_percentage =
      pgRound (100 * c6result.correct_answers)
        ([1, 2, 1] : List Int).length :=
  submit_grading_spec 10 1 [1, 2, 1] 30 c6store c6sess c6result (by decide)
    (by decide)

/-- C8 (amended): a nonempty answers array is never rejected — with an
active session and no prior attempt the submission is accepted; grading
only ever looks at the zipped positions, so the positions of a session
beyond the provided answers contribute nothing; and an answer value outside
0..3 can never equal a question's CHECK-constrained correct_answer, so it
is merely graded incorrect. -/
theorem malformed_answers_graceful :
    (∀ today uid (ans : List Int) t (s : Store) sess,
       todaysSession today s = some sess → ans ≠ [] →
       hasAttemptToday s uid today = false →
       submitOk (submit_daily_quiz_attempt today uid ans t s).1 = true) ∧
    (∀ qs (qids : List Nat) (ans : List Int),
       gradeAnswers qs qids ans =
         gradeAnswers qs (qids.take ans.length) ans) ∧
    (∀ qs qid (a : Int) q, qs.find? (fun x => x.id == qid) = some q →
       0 ≤ q.correct_answer → q.correct_answer ≤ 3 → a < 0 ∨ 3 < a →
       answerMatches qs (a, qid) = false) := by
  refine ⟨?_, ?_, ?_⟩
  · intro today uid ans t s sess hs hne hatt
    unfold submit_daily_quiz_attempt
    rw [hs, pgArrayLength_of_ne_nil ans hne]
    simp only [hatt]
    rfl
  · intro qs qids ans
    unfold gradeAnswers
    rw [zip_take_length]
  · intro qs qid a q hf h0 h3 hout
    unfold answerMatches
    rw [hf]
    show (a == q.correct_answer) = false
    rw [beq_eq_false_iff_ne]
    rcases hout with h | h <;> omega

/-- Witness for C8: the out-of-range answer 9 is accepted and graded
incorrect, and grading a 1-long array against the 3-question session only
views the first position. -/
theorem malformed_answers_graceful_witness :
    submitOk (submit_daily_quiz_attempt 10 1 [9] 5 c6store).1 = true ∧
    gradeAnswers c6store.questions c6sess.selected_questions [9] =
      gradeAnswers c6store.questions
        (c6sess.selected_questions.take ([9] : List Int).length) [9] ∧
    answerMatches c6store.questions (9, 1) = false :=
  ⟨malformed_answers_graceful.1 10 1 [9] 5 c6store c6sess (by decide)
     (by decide) (by decide),
   malformed_answers_graceful.2.1 c6store.questions
     c6sess.selected_questions [9],
   malformed_answers_graceful.2.2 c6store.questions 1 9 c6q1 (by decide)
     (by decide) (by decide) (Or.inr (by decide))⟩

theorem submit_fails_when_attempted (today : Int) (uid : Nat)
    (ans : List Int) (t : Int) (s : Store) (sess : Session)
    (hs : todaysSession today s = some sess) (hne : ans ≠ [])
    (hatt : hasAttemptToday s uid today = true) :
    submit_daily_quiz_attempt today uid ans t s =
      (.error .alreadySubmittedToday, s) := by
  unfold submit_daily_quiz_attempt
  rw [hs, pgArrayLength_of_ne_nil ans hne]
  simp only [hatt]
  rfl

theorem submit_preserves_invariant (today : Int) (uid : Nat)
    (ans : List Int) (t : Int) (s : Store) (h : AttemptsAtMostOne s) :
    AttemptsAtMostOne (submit_daily_quiz_attempt today uid ans t s).2 := by
  unfold submit_daily_quiz_attempt
  cases h0 : todaysSession today s with
  | none => exact h
  | some sess =>
    cases h1 : pgArrayLength ans with
    | none => exact h
    | some n =>
      cases h2 : hasAttemptToday s uid today with
      | true => exact h
      | false =>
        show List.Pairwise _ (s.attempts ++ [_])
        rw [List.pairwise_append]
        refine ⟨h, List.pairwise_singleton _ _, ?_⟩
        intro a ha b hb hcon
        rw [List.mem_singleton] at hb
        unfold hasAttemptToday at h2
        have hnot := (List.any_eq_false.mp h2) a ha
        apply hnot
        have hu : a.user_id = uid := by rw [hcon.1, hb]
        have hd : a.quiz_date = today := by rw [hcon.2, hb]
        simp [hu, hd]

theorem submit_sessions_preserved (today : Int) (uid : Nat) (ans : List Int)
    (t : Int) (s : Store) :
    (submit_daily_quiz_attempt today uid ans t s).2.sessions = s.sessions := by
  unfold submit_daily_quiz_attempt
  cases h0 : todaysSession today s with
  | none => rfl
  | some sess =>
    cases h1 : pgArrayLength ans with
    | none => rfl
    | some n =>
      cases h2 : hasAttemptToday s uid today with
      | true => rfl
      | false => rfl

theorem submit_marks_attempt (today : Int) (uid : Nat) (ans : List Int)
    (t : Int) (s : Store) (sess : Session)
    (hs : todaysSession today s = some sess) (hne : ans ≠ [])
    (hatt : hasAttemptToday s uid today = false) :
    hasAttemptToday (submit_daily_quiz_attempt today uid ans t s).2 uid
      today = true := by
  unfold submit_daily_quiz_attempt
  rw [hs, pgArrayLength_of_ne_nil ans hne]
  simp only [hatt]
  show (s.attempts ++ [_]).any _ = true
  rw [List.any_append]
  simp

theorem todaysSession_congr (today : Int) (s1 s2 : Store)
    (h : s1.sessions = s2.sessions) :
    todaysSession today s1 = todaysSession today s2 := by
  unfold todaysSession
  rw [h]

/-- C1: at most one attempt per (user, day) — the invariant is preserved by
any sequence of submit calls; a submit against an existing same-day attempt
fails with AlreadySubmittedToday and leaves the store unchanged; and of two
same-day submissions by one user, the first succeeds and the second fails
with AlreadySubmittedToday, adding no row. -/
theorem submit_at_most_once :
    (∀ reqs (s : Store), AttemptsAtMostOne s →
       AttemptsAtMostOne (runSubmits reqs s)) ∧
    (∀ today uid (ans : List Int) t (s : Store) sess,
       todaysSession today s = some sess → ans ≠ [] →
       hasAttemptToday s uid today = true →
       submit_daily_quiz_attempt today uid ans t s =
         (.error .alreadySubmittedToday, s)) ∧
    (∀ today uid (ans1 ans2 : List Int) t1 t2 (s : Store) sess,
       todaysSession today s = some sess → ans1 ≠ [] → ans2 ≠ [] →
       hasAttemptToday s uid today = false →
       submitOk (submit_daily_quiz_attempt today uid ans1 t1 s).1 = true ∧
       submit_daily_quiz_attempt today uid ans2 t2
           (submit_daily_quiz_attempt today uid ans1 t1 s).2 =
         (.error .alreadySubmittedToday,
          (submit_daily_quiz_attempt today uid ans1 t1 s).2)) := by
  refine ⟨?_, ?_, ?_⟩
  · intro reqs
    induction reqs with
    | nil => intro s h; exact h
    | cons q reqs ih =>
      intro s h
      exact ih _ (submit_preserves_invariant q.1 q.2.1 q.2.2.1 q.2.2.2 s h)
  · intro today uid ans t s sess hs hne hatt
    exact submit_fails_when_attempted today uid ans t s sess hs hne hatt
  · intro today uid ans1 ans2 t1 t2 s sess hs hne1 hne2 hatt
    constructor
    · unfold submit_daily_quiz_attempt
      rw [hs, pgArrayLength_of_ne_nil ans1 hne1]
      simp only [hatt]
      rfl
    · have hsess2 : todaysSession today
          (submit_daily_quiz_attempt today uid ans1 t1 s).2 = some sess := by
        rw [todaysSession_congr today _ s
          (submit_sessions_preserved today uid ans1 t1 s)]
        exact hs
      exact submit_fails_when_attempted today uid ans2 t2 _ sess hsess2 hne2
        (submit_marks_attempt today uid ans1 t1 s sess hs hne1 hatt)

/-- Witness for C1: a double submission by user 1 on day 10 against the
concrete store — the first call succeeds, the second returns
AlreadySubmittedToday, and the invariant holds after both. -/
theorem submit_at_most_once_witness :
    AttemptsAtMostOne (runSubmits [(10, 1, [1, 2, 1], 30)] c1store) ∧
    submitOk (submit_daily_quiz_attempt 10 1 [1, 2, 1] 30 c1store).1 = true ∧
    submit_daily_quiz_attempt 10 1 [1, 2, 0] 25
        (submit_daily_quiz_attempt 10 1 [1, 2, 1] 30 c1store).2 =
      (.error .alreadySubmittedToday,
       (submit_daily_quiz_attempt 10 1 [1, 2, 1] 30 c1store).2) :=
  ⟨submit_at_most_once.1 [(10, 1, [1, 2, 1], 30)] c1store (by decide),
   (submit_at_most_once.2.2 10 1 [1, 2, 1] [1, 2, 0] 30 25 c1store c6sess
      (by decide) (by decide) (by decide) (by decide)).1,
   (submit_at_most_once.2.2 10 1 [1, 2, 1] [1, 2, 0] 30 25 c1store c6sess
      (by decide) (by decide) (by decide) (by decide)).2⟩

/-- C9: the limit increment and the statistics update happen only after the
attempt insert succeeds (every failing call leaves the store untouched);
on success the user's limit row is incremented by exactly 1 with
last_attempt_date set to today, the user's stats row gains exactly
xp_earned XP and one completed mission with the activity date set to today
(an in-place increment, not an overwrite), and the rows of all other users,
the sessions and the question bank are unchanged. -/
theorem submit_postprocessing :
    (∀ today uid (ans : List Int) t (s : Store) e,
       (submit_daily_quiz_attempt today uid ans t s).1 = .error e →
       (submit_daily_quiz_attempt today uid ans t s).2 = s) ∧
    (∀ today uid (ans : List Int) t (s : Store) r,
       (submit_daily_quiz_attempt today uid ans t s).1 = .ok r →
       (submit_daily_quiz_attempt today uid ans t s).2.sessions =
         s.sessions ∧
       (submit_daily_quiz_attempt today uid ans t s).2.questions =
         s.questions ∧
       (∀ row ∈ s.limits, row.user_id = uid →
          ({ row with attempts_today := row.attempts_today + 1,
                      last_attempt_date := today } : UserLimits) ∈
            (submit_daily_quiz_attempt today uid ans t s).2.limits) ∧
       (∀ row ∈ s.limits, row.user_id ≠ uid →
          row ∈ (submit_daily_quiz_attempt today uid ans t s).2.limits) ∧
       (∀ st ∈ s.stats, st.user_id = uid →
          ({ st with total_xp := st.total_xp + r.xp_earned,
                     missions_completed := st.missions_completed + 1,
                     last_activity_date := today } : UserStats) ∈
            (submit_daily_quiz_attempt today uid ans t s).2.stats) ∧
       (∀ st ∈ s.stats, st.user_id ≠ uid →
          st ∈ (submit_daily_quiz_attempt today uid ans t s).2.stats)) := by
  constructor
  · intro today uid ans t s e h
    unfold submit_daily_quiz_attempt at h ⊢
    cases h0 : todaysSession today s with
    | none => rfl
    | some sess =>
      rw [h0] at h
      cases h1 : pgArrayLength ans with
      | none => rfl
      | some n =>
        rw [h1] at h
        cases h2 : hasAttemptToday s uid today with
        | true => rfl
        | false =>
          simp only [h2] at h
          exact absurd h (by simp)
  · intro today uid ans t s r hok
    cases h0 : todaysSession today s with
    | none =>
      exact absurd hok
        (by unfold submit_daily_quiz_attempt; simp [h0])
    | some sess =>
      cases h1 : pgArrayLength ans with
      | none =>
        exact absurd hok
          (by unfold submit_daily_quiz_attempt; simp [h0, h1])
      | some n =>
        cases h2 : hasAttemptToday s uid today with
        | true =>
          exact absurd hok
            (by unfold submit_daily_quiz_attempt; simp [h0, h1, h2])
        | false =>
          have hr := submit_ok_inversion today uid ans t s sess n r h0 h1
            h2 hok
          have hstore : (submit_daily_quiz_attempt today uid ans t s).2 =
              { s with
                attempts := s.attempts ++
                  [{ id := s.next_id, user_id := uid,
                     quiz_session_id := sess.id, quiz_date := today,
                     answers := ans,
                     correct_answers :=
                       (gradeAnswers s.questions sess.selected_questions
                         ans).1,
                     total_questions := n,
                     score_percentage :=
                       pgRound
                         (100 * (gradeAnswers s.questions
                           sess.selected_questions ans).1) n,
                     total_points :=
                       (gradeAnswers s.questions sess.selected_questions
                         ans).2,
                     time_spent := t }],
                limits := setLimitRow s.limits uid
                  (fun r0 => { r0 with
                     attempts_today := r0.attempts_today + 1,
                     last_attempt_date := today }),
                stats := upsertStats s.stats uid
                  ((gradeAnswers s.questions sess.selected_questions ans).2
                    * 2) today,
                next_id := s.next_id + 1 } := by
            unfold submit_daily_quiz_attempt
            simp only [h0, h1, h2]
            rfl
          rw [hstore, hr]
          refine ⟨rfl, rfl, ?_, ?_, ?_, ?_⟩
          · intro row hrow huid
            show _ ∈ setLimitRow s.limits uid _
            unfold setLimitRow
            exact List.mem_map.mpr ⟨row, hrow, by simp [huid]⟩
          · intro row hrow huid
            show row ∈ setLimitRow s.limits uid _
            unfold setLimitRow
            refine List.mem_map.mpr ⟨row, hrow, ?_⟩
            simp [huid]
          · intro st hst huid
            show _ ∈ upsertStats s.stats uid _ today
            unfold upsertStats
            rw [if_pos (List.any_eq_true.mpr ⟨st, hst, by simp [huid]⟩)]
            exact List.mem_map.mpr ⟨st, hst, by simp [huid]⟩
          · intro st hst huid
            show st ∈ upsertStats s.stats uid _ today
            unfold upsertStats
            cases hany : s.stats.any (fun r0 => r0.user_id == uid) with
            | true =>
              rw [if_pos rfl]
              refine List.mem_map.mpr ⟨st, hst, ?_⟩
              simp [huid]
            | false =>
              rw [if_neg (by decide)]
              exact List.mem_append_left _ hst

/-- Witness for C9: after the accepted example submission, user 1's limit
row is incremented in place, the stats row gains the 40 earned XP and one
completed mission, and the session table is untouched. -/
theorem submit_postprocessing_witness :
    ({ c9row with attempts_today := c9row.attempts_today + 1,
                  last_attempt_date := 10 } : UserLimits) ∈
      (submit_daily_quiz_attempt 10 1 [1, 2, 1] 30 c9store).2.limits ∧
    ({ c9stat with total_xp := c9stat.total_xp + c6result.xp_earned,
                   missions_completed := c9stat.missions_completed + 1,
                   last_activity_date := 10 } : UserStats) ∈
      (submit_daily_quiz_attempt 10 1 [1, 2, 1] 30 c9store).2.stats ∧
    (submit_daily_quiz_attempt 10 1 [1, 2, 1] 30 c9store).2.sessions =
      c9store.sessions := by
  have h := submit_postprocessing.2 10 1 [1, 2, 1] 30 c9store c6result
    (by decide)
  exact ⟨h.2.2.1 c9row (by decide) rfl, h.2.2.2.2.1 c9stat (by decide) rfl,
    h.1⟩

end DailyQuiz
